import Mathlib

/-!
Verification of the FalconCare RCM workflow core: a shallow embedding of the
workflow state machine from src/agents (models, transition function, step
handlers, driver) together with theorems about the frozen claims.

Conventions of the embedding:
- Python dict-backed state becomes a structure with one field per key of the
  RCMAgentState TypedDict; optional values become Option.
- Python truthiness is embedded explicitly: an optional string is truthy when
  it is present and non-empty (truthyOS); Pydantic model instances are always
  truthy, so their truthiness is Option.isSome; a float is falsy exactly when
  it equals 0 (pyOrQ embeds the "x or default" idiom).
- Floats become rationals; round(x, 2) becomes round-half-to-even on
  rationals (rnd2), exact on the dyadic inputs used in the theorems.
- The LLM calls and the payer gateway are external collaborators; they are
  passed in as an Oracles record of functions, with Except String modelling a
  Python exception escaping the call.
-/

/-- Message role, the type tag of langchain messages. -/
inductive Role where
  | human
  | ai
  | system
deriving DecidableEq, Repr

/-- One conversation message: role plus content. -/
structure Msg where
  role : Role
  content : String
deriving DecidableEq, Repr

/-- WorkflowStep enum from src/agents/utils/models.py. -/
inductive WorkflowStep where
  | initialization
  | data_collection
  | data_structuring
  | medical_coding
  | eligibility_checking
  | claim_processing
  | completed
deriving DecidableEq, Repr

/-- DecisionAction enum from src/agents/utils/models.py. -/
inductive DecisionAction where
  | ask_user
  | proceed
  | finalize
  | error
  | retry
deriving DecidableEq, Repr

/-- PatientData model (all fields optional strings). -/
structure PatientData where
  patient_id : Option String := none
  name : Option String := none
  date_of_birth : Option String := none
  gender : Option String := none
  insurance_provider : Option String := none
  policy_number : Option String := none
  mrn : Option String := none
deriving DecidableEq, Repr

/-- EncounterData model. -/
structure EncounterData where
  encounter_type : Option String := none
  service_date : Option String := none
  chief_complaint : Option String := none
  raw_clinical_notes : Option String := none
  provider_name : Option String := none
  location : Option String := none
deriving DecidableEq, Repr

/-- StructuredClinicalData model; dict-valued fields are kept as string lists
or dropped to their use sites, the confidence score is the field the handlers
read. -/
structure StructuredClinicalData where
  diagnoses : List String := []
  procedures : List String := []
  medications : List String := []
  confidence_score : Option ℚ := none
deriving DecidableEq, Repr

/-- MedicalCode model. -/
structure MedicalCode where
  code : String
  description : String
  confidence : ℚ
  rationale : String
  modifier : Option String := none
deriving DecidableEq, Repr

/-- SuggestedCodes model. -/
structure SuggestedCodes where
  icd10_codes : List MedicalCode := []
  cpt_codes : List MedicalCode := []
  overall_confidence : Option ℚ := none
  requires_human_review : Bool := false
deriving DecidableEq, Repr

/-- coverage_details is a Python dict; the handlers read only numeric keys,
so it is embedded as an association list from keys to rationals. Python
truthiness of the dict is non-emptiness of the list. -/
structure CoverageDetails where
  entries : List (String × ℚ) := []
deriving DecidableEq, Repr

/-- EligibilityResult model. -/
structure EligibilityResult where
  eligible : Bool
  payer_id : String := ""
  coverage_details : CoverageDetails := {}
  copay_amount : Option ℚ := none
  deductible_remaining : Option ℚ := none
  requires_prior_auth : Bool := false
  confidence_score : Option ℚ := none
  verification_date : Option String := none
deriving DecidableEq, Repr

/-- Entry of ClaimData.diagnosis_codes (a dict built from a MedicalCode). -/
structure DiagEntry where
  code : String
  description : String
  confidence : ℚ
deriving DecidableEq, Repr

/-- Entry of ClaimData.procedure_codes (a dict built from a MedicalCode,
keeping the modifier). -/
structure ProcEntry where
  code : String
  description : String
  confidence : ℚ
  modifier : Option String
deriving DecidableEq, Repr

/-- ClaimData model. -/
structure ClaimData where
  claim_number : Option String := none
  total_amount : Option ℚ := none
  patient_responsibility : Option ℚ := none
  payer_id : Option String := none
  diagnosis_codes : List DiagEntry := []
  procedure_codes : List ProcEntry := []
  status : String := "draft"
  submission_ready : Bool := false
deriving DecidableEq, Repr

/-- user_context dict: the keys the agent code reads. -/
structure UserContext where
  initial_input : Option String := none
  api_mode : Bool := false
  patient_id : Option String := none
deriving DecidableEq, Repr

/-- RCMAgentState TypedDict from src/agents/utils/models.py. -/
structure RCMAgentState where
  messages : List Msg := []
  patient_data : Option PatientData := none
  encounter_data : Option EncounterData := none
  structured_data : Option StructuredClinicalData := none
  suggested_codes : Option SuggestedCodes := none
  eligibility_result : Option EligibilityResult := none
  claim_data : Option ClaimData := none
  status : String := "collecting"
  workflow_step : WorkflowStep := WorkflowStep.initialization
  question_to_ask : Option String := none
  ready_for_processing : Bool := false
  need_user_input : Bool := false
  done : Bool := false
  exit_requested : Bool := false
  result : Option String := none
  error_message : Option String := none
  confidence_scores : List (String × ℚ) := []
  user_context : UserContext := {}
deriving DecidableEq, Repr

/-- Python truthiness of an optional string: present and non-empty. -/
def truthyOS : Option String → Bool
  | none => false
  | some t => !(t == "")

/-- Python idiom value-or-default on an optional float: a float is falsy
exactly when it is 0, so a present 0 still falls back to the default. -/
def pyOrQ : Option ℚ → ℚ → ℚ
  | none, d => d
  | some v, d => if v = 0 then d else v

/-- Lowercasing a string character by character, as str.lower does on the
ASCII provider names in play. -/
def pyLower (s : String) : String := String.mk (s.data.map Char.toLower)

/-- Substring test on the underlying character lists, the embedding of the
Python expression key in provider_lower. -/
def containsSub (needle : List Char) : List Char → Bool
  | [] => needle.isPrefixOf []
  | c :: rest => needle.isPrefixOf (c :: rest) || containsSub needle rest

/-- String containment: needle occurs inside hay. -/
def strIn (needle hay : String) : Bool := containsSub needle.data hay.data

/-- Dict read with default on an association list, as dict.get(k, d). -/
def dictGetD (l : List (String × ℚ)) (k : String) (d : ℚ) : ℚ :=
  ((l.find? (fun p => p.1 == k)).map (fun p => p.2)).getD d

/-- Dict lookup on an association list, as dict.get(k). -/
def dictGet (l : List (String × ℚ)) (k : String) : Option ℚ :=
  (l.find? (fun p => p.1 == k)).map (fun p => p.2)

/-- Dict assignment d[k] = v on an association list, preserving insertion
order as Python dicts do. -/
def dictSet (k : String) (v : ℚ) : List (String × ℚ) → List (String × ℚ)
  | [] => [(k, v)]
  | (k1, v1) :: t => if k1 == k then (k, v) :: t else (k1, v1) :: dictSet k v t

/-- Round-half-to-even to an integer, the tie-breaking rule of Python round. -/
def roundHalfEven (q : ℚ) : ℤ :=
  if q - ⌊q⌋ < 1/2 then ⌊q⌋
  else if q - ⌊q⌋ > 1/2 then ⌊q⌋ + 1
  else if ⌊q⌋ % 2 = 0 then ⌊q⌋ else ⌊q⌋ + 1

/-- Python round(x, 2) on rationals. -/
def rnd2 (q : ℚ) : ℚ := (roundHalfEven (q * 100) : ℚ) / 100

/-- Transition function get_next_workflow_step from
src/agents/utils/conditionals.py. -/
def get_next_workflow_step (s : RCMAgentState) : WorkflowStep :=
  if s.need_user_input then WorkflowStep.data_collection
  else if truthyOS s.error_message then s.workflow_step
  else if s.done then WorkflowStep.completed
  else
    match s.workflow_step with
    | WorkflowStep.initialization => WorkflowStep.data_collection
    | WorkflowStep.data_collection =>
        if s.patient_data.isSome && s.encounter_data.isSome
            && (s.status == "processing") then
          WorkflowStep.data_structuring
        else WorkflowStep.data_collection
    | WorkflowStep.data_structuring =>
        if s.structured_data.isSome && (s.status == "processing") then
          WorkflowStep.medical_coding
        else WorkflowStep.data_structuring
    | WorkflowStep.medical_coding =>
        if s.suggested_codes.isSome && (s.status == "processing") then
          WorkflowStep.eligibility_checking
        else WorkflowStep.medical_coding
    | WorkflowStep.eligibility_checking =>
        if s.eligibility_result.isSome && (s.status == "processing") then
          WorkflowStep.claim_processing
        else WorkflowStep.eligibility_checking
    | WorkflowStep.claim_processing =>
        if s.claim_data.isSome || s.done then WorkflowStep.completed
        else WorkflowStep.claim_processing
    | WorkflowStep.completed => WorkflowStep.completed

/-- The provider mapping table of map_insurance_provider_to_id, in the
insertion order of the Python dict. -/
def provider_mapping : List (String × String) :=
  [("daman", "DAMAN"), ("adnic", "ADNIC"), ("thiqa", "THIQA"),
   ("bupa", "BUPA"), ("abu dhabi national insurance", "ADNIC"),
   ("daman national health", "DAMAN"), ("thiqa insurance", "THIQA")]

/-- The for-loop of map_insurance_provider_to_id: first key that occurs in
the lowered provider name wins; UNKNOWN if none does. -/
def providerLoop : List (String × String) → String → String
  | [], _ => "UNKNOWN"
  | (k, v) :: rest, lowered =>
      if strIn k lowered then v else providerLoop rest lowered

/-- map_insurance_provider_to_id from src/agents/actions/claim_processing.py. -/
def map_insurance_provider_to_id (provider_name : String) : String :=
  providerLoop provider_mapping (pyLower provider_name)

namespace eligibility

/-- map_insurance_provider_to_id, the second copy, from
src/agents/actions/eligibility_checking.py (textually the same table and
loop). -/
def map_insurance_provider_to_id (provider_name : String) : String :=
  providerLoop provider_mapping (pyLower provider_name)

end eligibility

/-- calculate_patient_responsibility from
src/agents/actions/claim_processing.py. -/
def calculate_patient_responsibility (total_amount : ℚ)
    (eligibility_result : Option EligibilityResult) : ℚ :=
  match eligibility_result with
  | none => total_amount
  | some er =>
    if er.coverage_details.entries = [] then total_amount
    else
      let cd := er.coverage_details.entries
      let copay := pyOrQ er.copay_amount (dictGetD cd "copay_amount" 0)
      let deductible_remaining :=
        pyOrQ er.deductible_remaining (dictGetD cd "deductible_remaining" 0)
      let deductible_applied := min total_amount deductible_remaining
      let remaining_after_deductible := total_amount - deductible_applied
      let coverage_percentage := dictGetD cd "coverage_percentage" 80 / 100
      let coinsurance_amount :=
        remaining_after_deductible * (1 - coverage_percentage)
      let patient_responsibility :=
        copay + deductible_applied + coinsurance_amount
      rnd2 (min patient_responsibility total_amount)

/-- UserAgentDecision model: the structured output of the data-collection
decision LLM call. -/
structure UserAgentDecision where
  action : DecisionAction
  message : String
  next_step : Option WorkflowStep := none
  confidence : Option ℚ := none
deriving DecidableEq, Repr

/-- EligibilityDecision model. -/
structure EligibilityDecision where
  action : DecisionAction
  eligibility_result : Option EligibilityResult := none
  message : String
  requires_verification : Bool := false
deriving DecidableEq, Repr

/-- ClaimProcessingDecision model. -/
structure ClaimProcessingDecision where
  action : DecisionAction
  message : String
  ready_for_submission : Bool := false
deriving DecidableEq, Repr

/-- Payload parsed from the medical-coding LLM response: lists of codes plus
the JSON fields with their dict-get defaults already applied. -/
structure CodesPayload where
  icd10_codes : List MedicalCode := []
  cpt_codes : List MedicalCode := []
  overall_confidence : ℚ := 4/5
  requires_human_review : Bool := false
deriving DecidableEq, Repr

/-- Outcome dict of submit_claim_to_payer (that function catches its own
exceptions, so it is total). -/
structure SubmitOutcome where
  success : Bool
  reference_number : String := ""
  error : String := ""
deriving DecidableEq, Repr

/-- The external collaborators of the core: every LLM call, the console and
the payer gateway, plus the random draws of claim amount and claim number.
Except String models a Python exception escaping the call with its text. -/
structure Oracles where
  userDecision : RCMAgentState → Except String UserAgentDecision
  extractData : List Msg → PatientData × EncounterData
  consoleInput : RCMAgentState → String
  structuring : RCMAgentState → Except String StructuredClinicalData
  coding : RCMAgentState → Except String CodesPayload
  eligDecision : RCMAgentState → Except String EligibilityDecision
  claimDecision : RCMAgentState → Except String ClaimProcessingDecision
  claimAmount : SuggestedCodes → ℚ
  claimNumber : String
  submitClaim : ClaimData → RCMAgentState → SubmitOutcome

/-- initialize_rcm_state from src/agents/actions/user_interaction.py. -/
def init_rcm_state (s : RCMAgentState) : RCMAgentState :=
  let base : RCMAgentState :=
    { s with
      messages := [],
      patient_data := none,
      encounter_data := none,
      structured_data := none,
      suggested_codes := none,
      eligibility_result := none,
      claim_data := none,
      status := "collecting",
      workflow_step := WorkflowStep.data_collection,
      question_to_ask := none,
      ready_for_processing := false,
      need_user_input := true,
      done := false,
      exit_requested := false,
      result := none,
      error_message := none,
      confidence_scores := [] }
  if truthyOS s.user_context.initial_input then
    { base with
      messages := [⟨Role.human, s.user_context.initial_input.getD ""⟩],
      question_to_ask := none }
  else
    { base with
      question_to_ask := some "Welcome to FalconCare RCM! Please describe the patient encounter you would like to process." }

/-- Python str.strip on the underlying character list. -/
def pyStrip (s : String) : String :=
  String.mk
    (((s.data.dropWhile Char.isWhitespace).reverse.dropWhile
      Char.isWhitespace).reverse)

/-- process_user_input from src/agents/actions/user_interaction.py; the
interactive branch reads the console through the oracle. -/
def process_user_input (O : Oracles) (s : RCMAgentState) : RCMAgentState :=
  if s.user_context.api_mode then
    if s.messages = [] ∨
        ((s.messages.getLast?.map Msg.role).getD Role.ai ≠ Role.human) then
      { s with
        error_message := some "No user input provided in API mode",
        status := "error" }
    else { s with question_to_ask := none, need_user_input := false }
  else
    let u := O.consoleInput s
    if (["exit", "quit", "bye", "done"] : List String).contains (pyLower u) then
      { s with exit_requested := true }
    else
      let s1 := if pyStrip u ≠ "" then
          { s with messages := s.messages ++ [⟨Role.human, u⟩] }
        else s
      { s1 with question_to_ask := none, need_user_input := false }

/-- generate_user_agent_decision from src/agents/actions/user_interaction.py.
The missing-information checklist only shapes the prompt handed to the
oracle, so it does not appear in the state transition. -/
def generate_user_agent_decision (O : Oracles) (s : RCMAgentState) :
    RCMAgentState :=
  if s.exit_requested ∨ s.messages = [] then s
  else if ((s.messages.getLast?.map Msg.role).getD Role.ai ≠ Role.human) then s
  else
    match O.userDecision s with
    | Except.error e =>
      { s with
        question_to_ask := some "I had trouble understanding your request. Could you please provide the patient basic information: name, date of birth, and insurance details?",
        status := "collecting",
        need_user_input := true,
        error_message := some e }
    | Except.ok d =>
      match d.action with
      | DecisionAction.ask_user =>
        { s with
          question_to_ask := some d.message,
          messages := s.messages ++ [⟨Role.ai, d.message⟩],
          status := "collecting",
          need_user_input := true }
      | DecisionAction.proceed =>
        let pe := O.extractData s.messages
        { s with
          messages := s.messages ++
            [⟨Role.ai, "Great! I have all the information needed. Let me process the clinical data and suggest appropriate medical codes..."⟩],
          patient_data := some pe.1,
          encounter_data := some pe.2,
          status := "processing",
          workflow_step := WorkflowStep.data_structuring,
          ready_for_processing := true,
          done := false }
      | DecisionAction.finalize =>
        { s with
          messages := s.messages ++ [⟨Role.ai, d.message⟩],
          status := "completed",
          workflow_step := WorkflowStep.completed,
          done := true,
          result := some "RCM workflow completed successfully" }
      | _ =>
        { s with
          messages := s.messages ++
            [⟨Role.ai, "I encountered an error processing your request."⟩],
          status := "error",
          done := true,
          error_message := some d.message }

/-- structure_clinical_data from src/agents/actions/data_structuring.py.
Note that its guard checks only exit_requested, not the workflow step. -/
def structure_clinical_data (O : Oracles) (s : RCMAgentState) :
    RCMAgentState :=
  if s.exit_requested then s
  else
    let needNotes :=
      match s.encounter_data with
      | none => true
      | some ed => !(truthyOS ed.raw_clinical_notes)
    if needNotes then
      { s with
        question_to_ask := some "I need clinical notes to process. Please provide the clinical documentation for this encounter.",
        need_user_input := true,
        status := "collecting",
        workflow_step := WorkflowStep.data_collection }
    else
      match O.structuring s with
      | Except.error e =>
        { s with
          error_message := some ("Data structuring error: " ++ e),
          status := "error" }
      | Except.ok sd =>
        { s with
          structured_data := some sd,
          confidence_scores :=
            dictSet "data_structuring" (pyOrQ sd.confidence_score (4/5))
              s.confidence_scores,
          workflow_step := WorkflowStep.medical_coding,
          status := "processing",
          messages := s.messages ++
            [⟨Role.ai, "Clinical data has been structured successfully. Now suggesting appropriate medical codes..."⟩] }

/-- Arithmetic mean of the confidences of a list of codes. -/
def meanConfidence (l : List MedicalCode) : ℚ :=
  (l.map MedicalCode.confidence).sum / l.length

/-- Review question of the medical-coding handler (the Python f-string
interpolates the average confidence). -/
def codesReviewQuestion (avg : ℚ) : String :=
  "Medical codes suggested with " ++ toString avg ++
    " confidence. Do you approve these codes?"

/-- suggest_medical_codes from src/agents/actions/medical_coding.py. -/
def suggest_medical_codes (O : Oracles) (s : RCMAgentState) : RCMAgentState :=
  if s.exit_requested ∨ s.workflow_step ≠ WorkflowStep.medical_coding then s
  else if s.structured_data.isSome = false then
    { s with
      error_message := some "No structured clinical data available for coding",
      status := "error" }
  else
    match O.coding s with
    | Except.error e =>
      { s with
        error_message := some ("Medical coding error: " ++ e),
        status := "error" }
    | Except.ok p =>
      let sc : SuggestedCodes :=
        { icd10_codes := p.icd10_codes,
          cpt_codes := p.cpt_codes,
          overall_confidence := some p.overall_confidence,
          requires_human_review := p.requires_human_review }
      let s1 := { s with suggested_codes := some sc }
      let all_codes := p.icd10_codes ++ p.cpt_codes
      if all_codes ≠ [] then
        let avg := meanConfidence all_codes
        let s2 := { s1 with
          confidence_scores := dictSet "medical_coding" avg
            s1.confidence_scores }
        if sc.requires_human_review ∨ avg < 4/5 then
          { s2 with
            question_to_ask := some (codesReviewQuestion avg),
            need_user_input := true,
            status := "reviewing" }
        else
          { s2 with
            workflow_step := WorkflowStep.eligibility_checking,
            status := "processing",
            messages := s2.messages ++
              [⟨Role.ai, "Medical codes approved. Now checking patient eligibility..."⟩] }
      else
        { s1 with
          question_to_ask := some "No medical codes could be suggested. Please provide more specific clinical information.",
          need_user_input := true,
          status := "collecting",
          workflow_step := WorkflowStep.data_collection }

/-- check_patient_eligibility from
src/agents/actions/eligibility_checking.py. The payer id, service date and
payer response only feed the prompt, so they live inside the oracle. -/
def check_patient_eligibility (O : Oracles) (s : RCMAgentState) :
    RCMAgentState :=
  if s.exit_requested ∨
      s.workflow_step ≠ WorkflowStep.eligibility_checking then s
  else
    let needIns :=
      match s.patient_data with
      | none => true
      | some pd => !(truthyOS pd.insurance_provider)
    if needIns then
      { s with
        question_to_ask := some "I need patient insurance information to check eligibility. Please provide the insurance provider and policy details.",
        need_user_input := true,
        status := "collecting",
        workflow_step := WorkflowStep.data_collection }
    else
      match O.eligDecision s with
      | Except.error e =>
        { s with
          error_message := some ("Eligibility checking error: " ++ e),
          status := "error" }
      | Except.ok d =>
        let s1 := { s with messages := s.messages ++ [⟨Role.ai, d.message⟩] }
        match d.action, d.eligibility_result with
        | DecisionAction.proceed, some er =>
          let s2 := { s1 with
            eligibility_result := some er,
            confidence_scores :=
              dictSet "eligibility_check" (pyOrQ er.confidence_score 0)
                s1.confidence_scores }
          if er.eligible then
            let s3 := { s2 with
              workflow_step := WorkflowStep.claim_processing,
              status := "processing" }
            if er.requires_prior_auth then
              { s3 with
                question_to_ask := some "Prior authorization is required for this service. Would you like me to initiate the prior auth process?",
                need_user_input := true,
                status := "reviewing" }
            else s3
          else
            { s2 with
              question_to_ask :=
                some ("Patient is not eligible for coverage. Reason: " ++
                  d.message ++
                  ". Would you like to proceed with self-pay or check alternative coverage?"),
              need_user_input := true,
              status := "reviewing" }
        | DecisionAction.ask_user, _ =>
          { s1 with
            question_to_ask := some d.message,
            need_user_input := true,
            status := "collecting",
            workflow_step := WorkflowStep.data_collection }
        | DecisionAction.error, _ =>
          { s1 with
            error_message := some d.message,
            status := "error" }
        | _, _ => s1

/-- Dict built from an ICD-10 code for the claim payload. -/
def toDiagEntry (c : MedicalCode) : DiagEntry :=
  { code := c.code, description := c.description, confidence := c.confidence }

/-- Dict built from a CPT code for the claim payload. -/
def toProcEntry (c : MedicalCode) : ProcEntry :=
  { code := c.code,
    description := c.description,
    confidence := c.confidence,
    modifier := c.modifier }

/-- Exception text of calling .lower() on a missing insurance provider, the
AttributeError the Python code would raise inside its try block. -/
def noneLowerErr : String :=
  "Claim processing error: NoneType object has no attribute lower"

/-- process_claim_submission from src/agents/actions/claim_processing.py. -/
def process_claim_submission (O : Oracles) (s : RCMAgentState) :
    RCMAgentState :=
  if s.exit_requested ∨
      s.workflow_step ≠ WorkflowStep.claim_processing then s
  else
    let missing : List String :=
      (if s.patient_data.isSome then [] else ["patient data"]) ++
      (if s.encounter_data.isSome then [] else ["encounter data"]) ++
      (if s.suggested_codes.isSome then [] else ["medical codes"]) ++
      (if (s.eligibility_result.map EligibilityResult.eligible).getD false
        then [] else ["valid eligibility"])
    if missing ≠ [] then
      { s with
        error_message := some ("Cannot process claim. Missing: " ++
          String.intercalate ", " missing),
        status := "error" }
    else
      match s.patient_data, s.suggested_codes, s.eligibility_result with
      | some pd, some codes, some er =>
        match pd.insurance_provider with
        | none =>
          { s with
            error_message := some noneLowerErr,
            status := "error" }
        | some prov =>
          let total := O.claimAmount codes
          let resp := calculate_patient_responsibility total (some er)
          let cn := O.claimNumber
          let payer := map_insurance_provider_to_id prov
          match O.claimDecision s with
          | Except.error e =>
            { s with
              error_message := some ("Claim processing error: " ++ e),
              status := "error" }
          | Except.ok d =>
            let s1 := { s with
              messages := s.messages ++ [⟨Role.ai, d.message⟩] }
            match d.action with
            | DecisionAction.proceed =>
              let cd : ClaimData :=
                { claim_number := some cn,
                  total_amount := some total,
                  patient_responsibility := some resp,
                  payer_id := some payer,
                  diagnosis_codes := codes.icd10_codes.map toDiagEntry,
                  procedure_codes := codes.cpt_codes.map toProcEntry,
                  status := "ready_for_submission",
                  submission_ready := d.ready_for_submission }
              let s2 := { s1 with
                claim_data := some cd,
                confidence_scores :=
                  dictSet "claim_processing" (9/10) s1.confidence_scores }
              if d.ready_for_submission then
                let r := O.submitClaim cd s2
                if r.success then
                  { s2 with
                    workflow_step := WorkflowStep.completed,
                    status := "completed",
                    done := true,
                    result := some ("Claim " ++ cn ++
                      " submitted successfully. Reference: " ++
                      r.reference_number) }
                else
                  { s2 with
                    error_message :=
                      some ("Claim submission failed: " ++ r.error),
                    status := "error" }
              else
                { s2 with
                  question_to_ask := some ("Claim " ++ cn ++
                    " is prepared but requires review before submission. Would you like to review the claim details?"),
                  need_user_input := true,
                  status := "reviewing" }
            | DecisionAction.ask_user =>
              { s1 with
                question_to_ask := some d.message,
                need_user_input := true,
                status := "collecting",
                workflow_step := WorkflowStep.data_collection }
            | DecisionAction.error =>
              { s1 with
                error_message := some d.message,
                status := "error" }
            | _ => s1
      | _, _, _ => s

/-- The completion handler _handle_completion of RCMAgentExecutor. -/
def handle_completion (s : RCMAgentState) : RCMAgentState :=
  let s1 := if truthyOS s.result then s
    else { s with result := some "RCM workflow completed successfully" }
  { s1 with done := true, status := "completed" }

/-- The data-collection phase _process_data_collection of RCMAgentExecutor. -/
def process_data_collection (O : Oracles) (s : RCMAgentState) :
    RCMAgentState :=
  let s1 := if s.need_user_input ∧ s.messages ≠ [] then
      process_user_input O s
    else s
  if s1.need_user_input = false ∧ s1.exit_requested = false then
    generate_user_agent_decision O s1
  else s1

/-- The workflow_functions dispatch table of RCMAgentExecutor. -/
def handleStep (O : Oracles) : WorkflowStep → RCMAgentState → RCMAgentState
  | WorkflowStep.initialization, s => init_rcm_state s
  | WorkflowStep.data_collection, s => process_data_collection O s
  | WorkflowStep.data_structuring, s => structure_clinical_data O s
  | WorkflowStep.medical_coding, s => suggest_medical_codes O s
  | WorkflowStep.eligibility_checking, s => check_patient_eligibility O s
  | WorkflowStep.claim_processing, s => process_claim_submission O s
  | WorkflowStep.completed, s => handle_completion s

/-- The while loop of RCMAgentExecutor.execute_step with its iteration
budget made explicit (max_iterations = 5 in the source). -/
def execLoop (O : Oracles) : Nat → RCMAgentState → RCMAgentState
  | 0, s => s
  | Nat.succ n, s =>
    if s.need_user_input = false ∧ s.done = false ∧
        truthyOS s.error_message = false then
      let ns := get_next_workflow_step s
      if ns = s.workflow_step then s
      else execLoop O n (handleStep O ns { s with workflow_step := ns })
    else s

/-- RCMAgentExecutor.execute_step from src/agents/rcm_agent.py. -/
def execute_step (O : Oracles) (user_input : Option String)
    (s : RCMAgentState) : RCMAgentState :=
  let s1 :=
    match user_input with
    | some u =>
      if u ≠ "" ∧ pyStrip u ≠ "" then
        { s with
          messages := s.messages ++ [⟨Role.human, u⟩],
          need_user_input := false }
      else s
    | none => s
  let s2 := handleStep O s1.workflow_step s1
  execLoop O 5 s2

/-- Instrumented copy of execLoop that also counts how many automatic step
transitions (loop iterations that invoked a handler) were performed. -/
def execLoopCount (O : Oracles) :
    Nat → RCMAgentState → RCMAgentState × Nat
  | 0, s => (s, 0)
  | Nat.succ n, s =>
    if s.need_user_input = false ∧ s.done = false ∧
        truthyOS s.error_message = false then
      let ns := get_next_workflow_step s
      if ns = s.workflow_step then (s, 0)
      else
        let r := execLoopCount O n
          (handleStep O ns { s with workflow_step := ns })
        (r.1, r.2 + 1)
    else (s, 0)

/-- Instrumented copy of execute_step returning the final state together
with the number of automatic transitions taken by the loop. -/
def executeStepCount (O : Oracles) (user_input : Option String)
    (s : RCMAgentState) : RCMAgentState × Nat :=
  let s1 :=
    match user_input with
    | some u =>
      if u ≠ "" ∧ pyStrip u ≠ "" then
        { s with
          messages := s.messages ++ [⟨Role.human, u⟩],
          need_user_input := false }
      else s
    | none => s
  let s2 := handleStep O s1.workflow_step s1
  execLoopCount O 5 s2

/-!
Spec-side definitions and concrete records used by the theorems below.
-/

/-- Payer mapping as the spec words it: first match in table order wins,
UNKNOWN when no table key occurs in the lowered provider name. -/
def payerMappingSpec (provider_name : String) : String :=
  ((provider_mapping.find? (fun p => strIn p.1 (pyLower provider_name))).map
    Prod.snd).getD "UNKNOWN"

/-- Effective copay read by calculate_patient_responsibility: the model
field, falling back to the coverage_details entry (Python or-idiom). -/
def effCopay (er : EligibilityResult) : ℚ :=
  pyOrQ er.copay_amount (dictGetD er.coverage_details.entries "copay_amount" 0)

/-- Effective remaining deductible read by calculate_patient_responsibility. -/
def effDeductibleRemaining (er : EligibilityResult) : ℚ :=
  pyOrQ er.deductible_remaining
    (dictGetD er.coverage_details.entries "deductible_remaining" 0)

/-- Effective coverage percentage read by calculate_patient_responsibility
(default 80). -/
def effCoveragePct (er : EligibilityResult) : ℚ :=
  dictGetD er.coverage_details.entries "coverage_percentage" 80

/-- Patient responsibility as the spec words it: deductible applied first,
then coinsurance on the remainder, plus copay, capped at the total and
rounded to 2 decimals. -/
def patientResponsibilitySpec (total copay dedRem pct : ℚ) : ℚ :=
  let deductibleApplied := min total dedRem
  let coinsurance := (total - deductibleApplied) * (1 - pct / 100)
  rnd2 (min total (copay + deductibleApplied + coinsurance))

/-- A concrete oracle bundle whose collaborators are never consulted on the
paths under study (every LLM call fails, the gateway rejects). -/
def fixedOracles : Oracles :=
  { userDecision := fun _ => Except.error "unused",
    extractData := fun _ => ({}, {}),
    consoleInput := fun _ => "",
    structuring := fun _ => Except.error "unused",
    coding := fun _ => Except.error "unused",
    eligDecision := fun _ => Except.error "unused",
    claimDecision := fun _ => Except.error "unused",
    claimAmount := fun _ => 0,
    claimNumber := "CLM00000000",
    submitClaim := fun _ _ => { success := false } }

/-- A record stuck behind needUserInput while an error is also recorded. -/
def errStuckState : RCMAgentState :=
  { workflow_step := WorkflowStep.medical_coding,
    need_user_input := true,
    error_message := some "boom" }

/-- A record with a recorded error and no pending user input. -/
def errFreeStuck : RCMAgentState :=
  { workflow_step := WorkflowStep.medical_coding,
    error_message := some "oracle failure" }

/-- A data-collection record whose patient and encounter data are complete
and whose status allows auto-advance. -/
def readyCollectState : RCMAgentState :=
  { workflow_step := WorkflowStep.data_collection,
    patient_data := some {},
    encounter_data := some {},
    status := "processing" }

/-- Eligibility result that zeroes every cost-sharing component: total
coverage responsibility comes only from rounding. -/
def respCexER : EligibilityResult :=
  { eligible := true,
    coverage_details := ⟨[("coverage_percentage", 0)]⟩ }

/-- Eligibility result with the mock payer coverage details. -/
def respWitER : EligibilityResult :=
  { eligible := true,
    coverage_details :=
      ⟨[("copay_amount", 25), ("deductible_remaining", 500),
        ("coverage_percentage", 80)]⟩,
    copay_amount := some 25,
    deductible_remaining := some 500 }

/-- A record at a mismatched step (Completed) with no clinical notes. -/
def wrongStepState : RCMAgentState :=
  { workflow_step := WorkflowStep.completed,
    exit_requested := false,
    encounter_data := none }

/-- A record whose session has requested exit. -/
def exitState : RCMAgentState := { exit_requested := true }

/-- Oracles whose user-decision call raises (models an LLM exception). -/
def exnOracles : Oracles :=
  { fixedOracles with userDecision := fun _ => Except.error "LLM timeout" }

/-- A data-collection record with one human turn waiting for a decision. -/
def chatState : RCMAgentState :=
  { messages := [⟨Role.human, "hi"⟩],
    workflow_step := WorkflowStep.data_collection }

/-- CPT code record used by the concrete claim scenario. -/
def witVisitCode : MedicalCode :=
  { code := "99213",
    description := "Office visit",
    confidence := 9/10,
    rationale := "documented" }

/-- Oracles that prepare a submission-ready claim decision while the
gateway always rejects the submission. -/
def submitFailOracles : Oracles :=
  { fixedOracles with
    claimDecision := fun _ => Except.ok
      { action := DecisionAction.proceed, message := "Submitting claim",
        ready_for_submission := true },
    submitClaim := fun _ _ => { success := false, error := "payer rejected" } }

/-- A claim-processing record with every prerequisite present. -/
def claimReadyState : RCMAgentState :=
  { workflow_step := WorkflowStep.claim_processing,
    patient_data := some { insurance_provider := some "Daman" },
    encounter_data := some {},
    suggested_codes := some { cpt_codes := [witVisitCode] },
    eligibility_result := some { eligible := true },
    status := "processing" }

/-- ICD-10 code with 0.95 confidence. -/
def witICDCode : MedicalCode :=
  { code := "J18.9",
    description := "Pneumonia",
    confidence := 19/20,
    rationale := "from notes" }

/-- CPT code with 0.95 confidence. -/
def witCPTCode : MedicalCode :=
  { code := "99213",
    description := "Office visit",
    confidence := 19/20,
    rationale := "from notes" }

/-- Coding payload whose average confidence is 0.95 with no review flag. -/
def codesPayload95 : CodesPayload :=
  { icd10_codes := [witICDCode],
    cpt_codes := [witCPTCode],
    overall_confidence := 19/20,
    requires_human_review := false }

/-- Oracles returning the 0.95-confidence coding payload. -/
def codingOracles : Oracles :=
  { fixedOracles with coding := fun _ => Except.ok codesPayload95 }

/-- A medical-coding record with structured data present. -/
def codingState : RCMAgentState :=
  { workflow_step := WorkflowStep.medical_coding,
    structured_data := some {},
    status := "processing" }

/-- A fresh record: no error recorded, no pending user input. -/
def cleanState : RCMAgentState := {}

/-!
Helper lemmas shared by the claim theorems.
-/

/-- Round-half-to-even exceeds its argument by at most one half. -/
theorem roundHalfEven_le (q : ℚ) : (roundHalfEven q : ℚ) ≤ q + 1/2 := by
  have hf : (⌊q⌋ : ℚ) ≤ q := Int.floor_le q
  unfold roundHalfEven
  split_ifs with h1 h2 h3 <;> push_cast <;> linarith

/-- Two-decimal rounding exceeds its argument by at most half a cent. -/
theorem rnd2_le (q : ℚ) : rnd2 q ≤ q + 1/200 := by
  unfold rnd2
  rw [div_le_iff₀ (by norm_num : (0:ℚ) < 100)]
  have := roundHalfEven_le (q * 100)
  linarith

/-- Rounding a value already capped at t stays within half a cent of t. -/
theorem rnd2_min_le (X t : ℚ) : rnd2 (min X t) ≤ t + 1/200 := by
  have h1 := rnd2_le (min X t)
  have h2 : min X t ≤ t := min_le_right X t
  linarith

/-- The provider-table loop is the first-match lookup of the table. -/
theorem providerLoop_eq_find (l : List (String × String)) (x : String) :
    providerLoop l x =
      ((l.find? (fun p => strIn p.1 x)).map Prod.snd).getD "UNKNOWN" := by
  induction l with
  | nil => rfl
  | cons h t ih =>
    rcases h with ⟨k, v⟩
    by_cases hk : strIn k x
    · simp [providerLoop, List.find?, hk]
    · simp [providerLoop, List.find?, hk, ih]

/-- Reading back the key just written into a score dict. -/
theorem dictGet_dictSet (k : String) (v : ℚ) (l : List (String × ℚ)) :
    dictGet (dictSet k v l) k = some v := by
  induction l with
  | nil => simp [dictSet, dictGet, List.find?]
  | cons h t ih =>
    rcases h with ⟨k1, v1⟩
    by_cases hk : k1 == k
    · simp [dictSet, hk, dictGet, List.find?]
    · simp only [dictSet, hk, if_false, Bool.false_eq_true, ite_false]
      simp only [dictGet, List.find?, hk] at ih ⊢
      exact ih

/-- Appending to a non-empty string never yields the empty string. -/
theorem append_ne_empty (p x : String) (hp : p.data ≠ []) :
    ((p ++ x) == "") = false := by
  rw [beq_eq_false_iff_ne]
  intro h
  have hd : (p ++ x).data = [] := by rw [h]
  have hpx : (p ++ x).data = p.data ++ x.data := rfl
  rw [hpx] at hd
  rcases List.append_eq_nil.mp hd with ⟨h1, _⟩
  exact hp h1

/-- The gateway-failure error message is always Python-truthy. -/
theorem truthy_failed (x : String) :
    truthyOS (some ("Claim submission failed: " ++ x)) = true := by
  simp only [truthyOS]
  rw [append_ne_empty "Claim submission failed: " x (by decide)]
  rfl

/-- The instrumented loop computes the same state as the driver loop and
never performs more transitions than its fuel allows. -/
theorem execLoopCount_spec (O : Oracles) : ∀ n s,
    (execLoopCount O n s).1 = execLoop O n s ∧
    (execLoopCount O n s).2 ≤ n := by
  intro n
  induction n with
  | zero => intro s; exact ⟨rfl, Nat.le_refl 0⟩
  | succ n ih =>
    intro s
    unfold execLoopCount execLoop
    dsimp only
    split_ifs with h1 h2
    · exact ⟨rfl, Nat.zero_le _⟩
    · obtain ⟨ha, hb⟩ :=
        ih (handleStep O (get_next_workflow_step s)
          { s with workflow_step := get_next_workflow_step s })
      exact ⟨ha, by omega⟩
    · exact ⟨rfl, Nat.zero_le _⟩

/-- The driver loop halts immediately on a pausing condition. -/
theorem execLoop_stop (O : Oracles) (n : Nat) (s : RCMAgentState)
    (h : ¬(s.need_user_input = false ∧ s.done = false ∧
      truthyOS s.error_message = false)) :
    execLoop O n s = s := by
  cases n with
  | zero => rfl
  | succ n =>
    unfold execLoop
    rw [if_neg h]

/-- The instrumented loop counts no transition on a pausing condition. -/
theorem execLoopCount_stop (O : Oracles) (n : Nat) (s : RCMAgentState)
    (h : ¬(s.need_user_input = false ∧ s.done = false ∧
      truthyOS s.error_message = false)) :
    (execLoopCount O n s).2 = 0 := by
  cases n with
  | zero => rfl
  | succ n =>
    unfold execLoopCount
    rw [if_neg h]

/-!
Claim theorems.
-/

/-- C1: with the higher-priority overrides absent (need_user_input false,
error_message not truthy, done false), get_next_workflow_step implements the
dispatch table: Init goes to DataCollection; DataCollection,
DataStructuring, MedicalCoding and EligibilityChecking each advance exactly
when the corresponding stage output is present and status is processing,
otherwise they stay; ClaimProcessing completes exactly when claim_data is
present or done holds; Completed is terminal. -/
theorem C1_transition_dispatch (s : RCMAgentState)
    (hn : s.need_user_input = false)
    (he : truthyOS s.error_message = false)
    (hd : s.done = false) :
    (s.workflow_step = WorkflowStep.initialization →
      get_next_workflow_step s = WorkflowStep.data_collection) ∧
    (s.workflow_step = WorkflowStep.data_collection →
      get_next_workflow_step s =
        (if s.patient_data.isSome ∧ s.encounter_data.isSome ∧
            s.status = "processing"
         then WorkflowStep.data_structuring
         else WorkflowStep.data_collection)) ∧
    (s.workflow_step = WorkflowStep.data_structuring →
      get_next_workflow_step s =
        (if s.structured_data.isSome ∧ s.status = "processing"
         then WorkflowStep.medical_coding
         else WorkflowStep.data_structuring)) ∧
    (s.workflow_step = WorkflowStep.medical_coding →
      get_next_workflow_step s =
        (if s.suggested_codes.isSome ∧ s.status = "processing"
         then WorkflowStep.eligibility_checking
         else WorkflowStep.medical_coding)) ∧
    (s.workflow_step = WorkflowStep.eligibility_checking →
      get_next_workflow_step s =
        (if s.eligibility_result.isSome ∧ s.status = "processing"
         then WorkflowStep.claim_processing
         else WorkflowStep.eligibility_checking)) ∧
    (s.workflow_step = WorkflowStep.claim_processing →
      (get_next_workflow_step s = WorkflowStep.completed ↔
        (s.claim_data.isSome = true ∨ s.done = true))) ∧
    (s.workflow_step = WorkflowStep.completed →
      get_next_workflow_step s = WorkflowStep.completed) := by
  refine ⟨?_, ?_, ?_, ?_, ?_, ?_, ?_⟩ <;> intro h <;>
    unfold get_next_workflow_step <;> simp only [hn, he, hd, h] <;>
    first
    | rfl
    | (split_ifs <;> simp_all)

/-- C1 witness: a complete data-collection record in processing status
advances to DataStructuring. -/
theorem C1_transition_dispatch_witness :
    get_next_workflow_step readyCollectState =
      WorkflowStep.data_structuring := by
  have h := (C1_transition_dispatch readyCollectState rfl rfl rfl).2.1 rfl
  rw [if_pos ⟨rfl, rfl, rfl⟩] at h
  exact h

/-- C2: whenever need_user_input is set, get_next_workflow_step returns
DataCollection regardless of every other field of the record. -/
theorem C2_need_user_input_forces_collection (s : RCMAgentState)
    (h : s.need_user_input = true) :
    get_next_workflow_step s = WorkflowStep.data_collection := by
  unfold get_next_workflow_step
  simp [h]

/-- C2 witness: even from EligibilityChecking, a pending user input routes
back to DataCollection. -/
theorem C2_need_user_input_forces_collection_witness :
    get_next_workflow_step
      { workflow_step := WorkflowStep.eligibility_checking,
        need_user_input := true, status := "processing" } =
      WorkflowStep.data_collection :=
  C2_need_user_input_forces_collection _ rfl

/-- C3 counterexample: a record with a non-null error_message but
need_user_input also set is routed to DataCollection, not held at its
current step, because the user-input check has higher priority. -/
theorem C3_error_freeze_counterexample :
    truthyOS errStuckState.error_message = true ∧
    get_next_workflow_step errStuckState ≠ errStuckState.workflow_step := by
  decide

/-- C3 amended: for every record with need_user_input false and a
Python-truthy (non-null, non-empty) error_message, get_next_workflow_step
returns the current step unchanged, and calling it again on the record with
that step written back returns the same step. -/
theorem C3_error_freeze_amended (s : RCMAgentState)
    (hn : s.need_user_input = false)
    (he : truthyOS s.error_message = true) :
    get_next_workflow_step s = s.workflow_step ∧
    get_next_workflow_step
      { s with workflow_step := get_next_workflow_step s } =
      s.workflow_step := by
  have h1 : get_next_workflow_step s = s.workflow_step := by
    unfold get_next_workflow_step
    simp [hn, he]
  refine ⟨h1, ?_⟩
  rw [h1]
  have h2 : ({ s with workflow_step := s.workflow_step } : RCMAgentState)
      = s := rfl
  rw [h2, h1]

/-- C3 amended witness: an errored medical-coding record stays at
MedicalCoding across repeated transition calls. -/
theorem C3_error_freeze_amended_witness :
    get_next_workflow_step errFreeStuck = WorkflowStep.medical_coding ∧
    get_next_workflow_step
      { errFreeStuck with
        workflow_step := get_next_workflow_step errFreeStuck } =
      WorkflowStep.medical_coding :=
  C3_error_freeze_amended errFreeStuck rfl rfl

/-- C4: both copies of map_insurance_provider_to_id realise the spec table:
case-insensitive substring match, first match wins in table order, UNKNOWN
sentinel when nothing matches; Thiqa Insurance maps to THIQA, Unknown Co to
UNKNOWN, and the two copies are extensionally equal. -/
theorem C4_payer_mapping :
    (∀ p, map_insurance_provider_to_id p = payerMappingSpec p) ∧
    (∀ p, eligibility.map_insurance_provider_to_id p =
      map_insurance_provider_to_id p) ∧
    map_insurance_provider_to_id "Thiqa Insurance" = "THIQA" ∧
    map_insurance_provider_to_id "Unknown Co" = "UNKNOWN" := by
  refine ⟨?_, ?_, ?_, ?_⟩
  · intro p
    unfold map_insurance_provider_to_id payerMappingSpec
    exact providerLoop_eq_find _ _
  · intro p
    rfl
  · decide
  · decide

/-- C5 counterexample: with 0 percent coverage, no copay and no deductible,
a total of 0.375 produces a pre-rounding responsibility of exactly the
total, and the final 2-decimal rounding returns 0.38, which exceeds the
total; the claimed bound responsibility <= total fails. -/
theorem C5_rounding_counterexample :
    effCopay respCexER = 0 ∧
    effDeductibleRemaining respCexER = 0 ∧
    effCoveragePct respCexER = 0 ∧
    calculate_patient_responsibility (3/8) (some respCexER) = 19/50 ∧
    (19/50 : ℚ) > 3/8 := by
  have hfl : ⌊(3/8 * 100 : ℚ)⌋ = 37 := by
    rw [Int.floor_eq_iff]
    norm_num
  refine ⟨?_, ?_, ?_, ?_, by norm_num⟩
  · simp [effCopay, respCexER, dictGetD, pyOrQ, List.find?]
  · simp [effDeductibleRemaining, respCexER, dictGetD, pyOrQ, List.find?]
  · simp [effCoveragePct, respCexER, dictGetD, List.find?]
  · simp [calculate_patient_responsibility, respCexER, dictGetD, pyOrQ,
      List.find?]
    norm_num [rnd2, roundHalfEven, hfl]

/-- C5 amended: whenever the coverage details are non-empty,
calculate_patient_responsibility equals the spec formula (deductible
applied, then coinsurance, plus copay, capped at the total, rounded to two
decimals) evaluated at the effective copay, deductible and coverage
percentage; and for every input the returned responsibility exceeds the
total amount by at most 0.005, the half-cent the final rounding can add. -/
theorem C5_responsibility_amended (total : ℚ) (er : EligibilityResult)
    (hcd : er.coverage_details.entries ≠ []) :
    calculate_patient_responsibility total (some er) =
      patientResponsibilitySpec total (effCopay er)
        (effDeductibleRemaining er) (effCoveragePct er) ∧
    (∀ t : ℚ, ∀ oer : Option EligibilityResult,
      calculate_patient_responsibility t oer ≤ t + 1/200) := by
  constructor
  · unfold calculate_patient_responsibility patientResponsibilitySpec
    dsimp only
    rw [if_neg hcd]
    unfold effCopay effDeductibleRemaining effCoveragePct
    rw [min_comm]
  · intro t oer
    cases oer with
    | none =>
      unfold calculate_patient_responsibility
      linarith
    | some er2 =>
      unfold calculate_patient_responsibility
      dsimp only
      split_ifs with h
      · linarith
      · exact rnd2_min_le _ t

/-- C5 amended witness: the mock coverage profile (25 copay, 500 remaining
deductible, 80 percent coverage) on a 100 total satisfies both the formula
refinement and the half-cent bound. -/
theorem C5_responsibility_amended_witness :
    calculate_patient_responsibility 100 (some respWitER) =
      patientResponsibilitySpec 100 (effCopay respWitER)
        (effDeductibleRemaining respWitER) (effCoveragePct respWitER) ∧
    calculate_patient_responsibility 100 (some respWitER) ≤ 100 + 1/200 := by
  have h := C5_responsibility_amended 100 respWitER (List.cons_ne_nil _ _)
  exact ⟨h.1, h.2 100 (some respWitER)⟩

/-- C6 counterexample: structure_clinical_data runs on a record whose step
is Completed (a step mismatch) with exit_requested false and mutates it,
because its guard checks only exit_requested. -/
theorem C6_step_guard_counterexample :
    wrongStepState.exit_requested = false ∧
    wrongStepState.workflow_step ≠ WorkflowStep.data_structuring ∧
    structure_clinical_data fixedOracles wrongStepState ≠ wrongStepState := by
  refine ⟨rfl, by decide, ?_⟩
  intro h
  have hc := congrArg RCMAgentState.need_user_input h
  simp [structure_clinical_data, wrongStepState, fixedOracles, truthyOS]
    at hc

/-- C6 amended: the medical-coding, eligibility-checking and
claim-processing handlers return their input unchanged on a step mismatch
or when exit is requested; the data-structuring handler guards only on
exit_requested (no step-mismatch guard). -/
theorem C6_step_guard_amended (O : Oracles) (s : RCMAgentState) :
    (s.exit_requested = true ∨
        s.workflow_step ≠ WorkflowStep.medical_coding →
      suggest_medical_codes O s = s) ∧
    (s.exit_requested = true ∨
        s.workflow_step ≠ WorkflowStep.eligibility_checking →
      check_patient_eligibility O s = s) ∧
    (s.exit_requested = true ∨
        s.workflow_step ≠ WorkflowStep.claim_processing →
      process_claim_submission O s = s) ∧
    (s.exit_requested = true → structure_clinical_data O s = s) := by
  refine ⟨?_, ?_, ?_, ?_⟩
  · intro h
    unfold suggest_medical_codes
    rw [if_pos h]
  · intro h
    unfold check_patient_eligibility
    rw [if_pos h]
  · intro h
    unfold process_claim_submission
    rw [if_pos h]
  · intro h
    unfold structure_clinical_data
    rw [if_pos h]

/-- C6 amended witness: with exit requested, all four handlers leave the
record untouched. -/
theorem C6_step_guard_amended_witness :
    suggest_medical_codes fixedOracles exitState = exitState ∧
    check_patient_eligibility fixedOracles exitState = exitState ∧
    process_claim_submission fixedOracles exitState = exitState ∧
    structure_clinical_data fixedOracles exitState = exitState :=
  ⟨(C6_step_guard_amended fixedOracles exitState).1 (Or.inl rfl),
   (C6_step_guard_amended fixedOracles exitState).2.1 (Or.inl rfl),
   (C6_step_guard_amended fixedOracles exitState).2.2.1 (Or.inl rfl),
   (C6_step_guard_amended fixedOracles exitState).2.2.2 rfl⟩

/-- C7: for every oracle bundle, optional user input and state, one call to
execute_step terminates with a state, its loop performing at most 5
automatic step transitions: the instrumented executor returns the same
state as execute_step together with a transition count bounded by 5. -/
theorem C7_driver_iteration_cap (O : Oracles) (u : Option String)
    (s : RCMAgentState) :
    (executeStepCount O u s).1 = execute_step O u s ∧
    (executeStepCount O u s).2 ≤ 5 := by
  unfold executeStepCount execute_step
  exact execLoopCount_spec O 5 _

/-- C8: when the claim-processing handler runs with every prerequisite
present (patient data with a provider, encounter data, suggested codes, an
eligible eligibility result), the oracle proceeds with a submission-ready
claim, and the gateway rejects the submission, the handler records a truthy
error_message with status error, leaves done false and the step at
ClaimProcessing; the driver then performs zero automatic transitions and
returns exactly that state (no retry). -/
theorem C8_gateway_failure_freezes (O : Oracles) (s : RCMAgentState)
    (pd : PatientData) (prov : String) (codes : SuggestedCodes)
    (er : EligibilityResult) (d : ClaimProcessingDecision)
    (hstep : s.workflow_step = WorkflowStep.claim_processing)
    (hexit : s.exit_requested = false)
    (hdone : s.done = false)
    (hpd : s.patient_data = some pd)
    (hins : pd.insurance_provider = some prov)
    (hed : s.encounter_data.isSome = true)
    (hsc : s.suggested_codes = some codes)
    (her : s.eligibility_result = some er)
    (helig : er.eligible = true)
    (hdec : O.claimDecision s = Except.ok d)
    (hact : d.action = DecisionAction.proceed)
    (hready : d.ready_for_submission = true)
    (hfail : ∀ c t, (O.submitClaim c t).success = false) :
    truthyOS (process_claim_submission O s).error_message = true ∧
    (process_claim_submission O s).status = "error" ∧
    (process_claim_submission O s).done = false ∧
    (process_claim_submission O s).workflow_step =
      WorkflowStep.claim_processing ∧
    execute_step O none s = process_claim_submission O s ∧
    (executeStepCount O none s).2 = 0 := by
  have hguard : ¬(s.exit_requested = true ∨
      s.workflow_step ≠ WorkflowStep.claim_processing) := by
    simp [hexit, hstep]
  have hall : truthyOS (process_claim_submission O s).error_message = true ∧
      (process_claim_submission O s).status = "error" ∧
      (process_claim_submission O s).done = false ∧
      (process_claim_submission O s).workflow_step =
        WorkflowStep.claim_processing := by
    unfold process_claim_submission
    rw [if_neg hguard]
    simp [hpd, hsc, her, hed, helig, hins, hdec, hact, hready, hfail,
      truthy_failed, hdone, hstep]
  obtain ⟨h1, h2, h3, h4⟩ := hall
  refine ⟨h1, h2, h3, h4, ?_, ?_⟩
  · unfold execute_step
    dsimp only
    rw [hstep]
    exact execLoop_stop O 5 _ (by simp only [handleStep]; simp [h1])
  · unfold executeStepCount
    dsimp only
    rw [hstep]
    exact execLoopCount_stop O 5 _ (by simp only [handleStep]; simp [h1])

/-- C8 witness: a fully prepared claim record with an always-failing
gateway ends in a frozen error state after a single handler run. -/
theorem C8_gateway_failure_freezes_witness :
    truthyOS (process_claim_submission submitFailOracles
      claimReadyState).error_message = true ∧
    (process_claim_submission submitFailOracles claimReadyState).status =
      "error" ∧
    (process_claim_submission submitFailOracles claimReadyState).done =
      false ∧
    (process_claim_submission submitFailOracles
      claimReadyState).workflow_step = WorkflowStep.claim_processing ∧
    execute_step submitFailOracles none claimReadyState =
      process_claim_submission submitFailOracles claimReadyState ∧
    (executeStepCount submitFailOracles none claimReadyState).2 = 0 :=
  C8_gateway_failure_freezes submitFailOracles claimReadyState _ "Daman"
    _ _ _ rfl rfl rfl rfl rfl rfl rfl rfl rfl rfl rfl rfl (fun _ _ => rfl)

/-- C9: when the medical-coding handler runs at its own step with
structured data present and the oracle returns a non-empty code payload,
the handler records the arithmetic mean of all code confidences under the
medical_coding key; if that mean is at least 0.8 and the review flag is
off, status becomes processing and the step advances to
EligibilityChecking without touching need_user_input; if the mean is below
0.8 or the review flag is set, need_user_input becomes true with status
reviewing. -/
theorem C9_coding_confidence_gate (O : Oracles) (s : RCMAgentState)
    (p : CodesPayload)
    (hexit : s.exit_requested = false)
    (hstep : s.workflow_step = WorkflowStep.medical_coding)
    (hsd : s.structured_data.isSome = true)
    (hres : O.coding s = Except.ok p)
    (hne : p.icd10_codes ++ p.cpt_codes ≠ []) :
    dictGet (suggest_medical_codes O s).confidence_scores "medical_coding" =
      some (meanConfidence (p.icd10_codes ++ p.cpt_codes)) ∧
    (4/5 ≤ meanConfidence (p.icd10_codes ++ p.cpt_codes) ∧
        p.requires_human_review = false →
      (suggest_medical_codes O s).status = "processing" ∧
      (suggest_medical_codes O s).workflow_step =
        WorkflowStep.eligibility_checking ∧
      (suggest_medical_codes O s).need_user_input = s.need_user_input) ∧
    ((meanConfidence (p.icd10_codes ++ p.cpt_codes) < 4/5 ∨
        p.requires_human_review = true) →
      (suggest_medical_codes O s).need_user_input = true ∧
      (suggest_medical_codes O s).status = "reviewing") := by
  have hguard : ¬(s.exit_requested = true ∨
      s.workflow_step ≠ WorkflowStep.medical_coding) := by
    simp [hexit, hstep]
  unfold suggest_medical_codes
  rw [if_neg hguard, if_neg (by simp [hsd]), hres]
  dsimp only
  rw [if_pos hne]
  refine ⟨?_, ?_, ?_⟩
  · split_ifs with h
    · simp [dictGet_dictSet]
    · simp [dictGet_dictSet]
  · rintro ⟨h1, h2⟩
    rw [if_neg (by simp [h2, not_lt.mpr h1])]
    simp
  · intro h
    rw [if_pos ?_]
    · simp
    · rcases h with h | h
      · exact Or.inr h
      · exact Or.inl h

/-- C9 witness: two codes with 0.95 confidence each and no review flag
advance the record to EligibilityChecking in processing status, leaving
need_user_input as it was, with the 0.95 mean recorded. -/
theorem C9_coding_confidence_gate_witness :
    (suggest_medical_codes codingOracles codingState).status =
      "processing" ∧
    (suggest_medical_codes codingOracles codingState).workflow_step =
      WorkflowStep.eligibility_checking ∧
    (suggest_medical_codes codingOracles codingState).need_user_input =
      codingState.need_user_input ∧
    dictGet (suggest_medical_codes codingOracles
        codingState).confidence_scores "medical_coding" =
      some (meanConfidence
        (codesPayload95.icd10_codes ++ codesPayload95.cpt_codes)) := by
  have h := C9_coding_confidence_gate codingOracles codingState
    codesPayload95 rfl rfl rfl rfl (by simp [codesPayload95])
  have h2 := h.2.1 ⟨by
    norm_num [meanConfidence, codesPayload95, witICDCode, witCPTCode], rfl⟩
  exact ⟨h2.1, h2.2.1, h2.2.2, h.1⟩

/-- C10 counterexample: when the data-collection decision oracle raises,
generate_user_agent_decision sets need_user_input and error_message at
once, so a handler invocation can leave both flags set. -/
theorem C10_dual_flag_counterexample :
    (generate_user_agent_decision exnOracles chatState).need_user_input =
      true ∧
    truthyOS (generate_user_agent_decision exnOracles
      chatState).error_message = true := by
  decide

set_option maxHeartbeats 2000000 in
/-- C10 amended: starting from a record with no recorded error and no
pending user input, the data-structuring, medical-coding,
eligibility-checking and claim-processing handlers never produce a record
with both a truthy error_message and need_user_input set: each failure
branch sets exactly one of the two. The data-collection decision handler is
excluded: its oracle-exception fallback sets both at once. -/
theorem C10_dual_flag_amended (O : Oracles) (s : RCMAgentState)
    (herr : s.error_message = none) (hneed : s.need_user_input = false) :
    (¬(truthyOS (structure_clinical_data O s).error_message = true ∧
       (structure_clinical_data O s).need_user_input = true)) ∧
    (¬(truthyOS (suggest_medical_codes O s).error_message = true ∧
       (suggest_medical_codes O s).need_user_input = true)) ∧
    (¬(truthyOS (check_patient_eligibility O s).error_message = true ∧
       (check_patient_eligibility O s).need_user_input = true)) ∧
    (¬(truthyOS (process_claim_submission O s).error_message = true ∧
       (process_claim_submission O s).need_user_input = true)) := by
  refine ⟨?_, ?_, ?_, ?_⟩
  · unfold structure_clinical_data
    repeat'
      first
      | split
      | simp [truthyOS, herr, hneed]
    all_goals simp_all [truthyOS]
  · unfold suggest_medical_codes
    repeat'
      first
      | split
      | simp [truthyOS, herr, hneed]
    all_goals simp_all [truthyOS]
  · unfold check_patient_eligibility
    repeat'
      first
      | split
      | simp [truthyOS, herr, hneed]
    all_goals simp_all [truthyOS]
  · unfold process_claim_submission
    repeat'
      first
      | split
      | simp [truthyOS, herr, hneed]
    all_goals simp_all [truthyOS]

/-- C10 amended witness: on a fresh record the four stage handlers leave at
most one of the two flags set. -/
theorem C10_dual_flag_amended_witness :
    (¬(truthyOS (structure_clinical_data fixedOracles
          cleanState).error_message = true ∧
       (structure_clinical_data fixedOracles
          cleanState).need_user_input = true)) ∧
    (¬(truthyOS (suggest_medical_codes fixedOracles
          cleanState).error_message = true ∧
       (suggest_medical_codes fixedOracles
          cleanState).need_user_input = true)) ∧
    (¬(truthyOS (check_patient_eligibility fixedOracles
          cleanState).error_message = true ∧
       (check_patient_eligibility fixedOracles
          cleanState).need_user_input = true)) ∧
    (¬(truthyOS (process_claim_submission fixedOracles
          cleanState).error_message = true ∧
       (process_claim_submission fixedOracles
          cleanState).need_user_input = true)) :=
  C10_dual_flag_amended fixedOracles cleanState rfl rfl
